import Mathlib

/-!
Verification of the Charlotte ephemeral-chat backend (`src/backend/server.py`)
against its natural-language specification.

Shallow embedding conventions:
* Time is measured in whole seconds (`Nat`); `datetime.utcnow()` values become
  a `now : Nat` parameter, and `timedelta(minutes := m)` becomes `m * 60`.
* The MongoDB collections `db.sessions` / `db.messages` become lists inside a
  `DB` structure; `find_one` is `List.find?`, `update_one` / `delete_one`
  update or delete the first match, `delete_many` filters.
* A WebSocket channel is identified by a `Nat`; whether `send_json` on a given
  channel succeeds is abstracted by a predicate `sendOk : Nat → Bool`
  (delivery failure depends on the channel's transport, not on the payload).
* Python `dict`s indexed by session id become functions out of `String`;
  an absent key is identified with the neutral value (`none` / the constant
  `none` map), which every observation of the source factors through.
* Handlers that `await` fallible store operations take explicit success flags
  or return `Except` values: an exception propagating out of an `await` is the
  `.error` branch, which skips the rest of the handler body.
-/

namespace Charlotte

/-- A session record as stored in `db.sessions` (`create_session` inserts all
of these fields; the upgrade paths additionally set `upgraded_at` /
`secret_upgraded`). -/
structure Session where
  id : String
  code : String
  is_pro : Bool
  message_ttl_minutes : Nat
  max_participants : Nat
  created_at : Nat
  expires_at : Nat
  creator_nickname : Option String := none
  upgraded_at : Option Nat := none
  secret_upgraded : Bool := false
deriving Repr, DecidableEq

/-- A message record as stored in `db.messages` (inserted by `create_message`). -/
structure Message where
  id : String
  session_id : String
  content : String
  message_type : String
  file_name : Option String := none
  sender_id : String
  sender_nickname : Option String := none
  created_at : Nat
  expires_at : Nat
deriving Repr, DecidableEq

/-- The persistent store: the two MongoDB collections used by the handlers. -/
structure DB where
  sessions : List Session
  messages : List Message
deriving Repr, DecidableEq

/-- Events the server pushes over websockets (the `type` discriminated JSON
objects built at each `manager.broadcast` / `send_json` call site). -/
inductive ServerEvent where
  | newMessage (msg : Message)
  | userJoined (nickname : String) (sender_id : Option String) (count : Nat)
      (max_participants : Nat)
  | userLeft (nickname : String) (count : Int)
  | typing (sender_id : Option String) (nickname : Option String)
      (is_typing : Bool)
  | pong
  | sessionUpgraded (is_pro : Bool) (message_ttl_minutes : Nat)
      (max_participants : Nat)
  | sessionDestroyed (message : String)
  | error (code : String) (message : String) (max_participants : Nat)
deriving Repr, DecidableEq

/-- The in-memory connection registry `ConnectionManager.active_connections`:
`Dict[str, List[WebSocket]]`, embedded as a map from session id to the
(optional) list of registered channel ids.  `none` models an absent key,
mirroring the `del` performed by `disconnect` on an emptied entry. -/
structure ConnectionManager where
  active_connections : String → Option (List Nat)

/-- `ConnectionManager.connect`: `accept` the socket, create the session entry
if absent, and append the channel. -/
def connect (m : ConnectionManager) (ws : Nat) (sid : String) :
    ConnectionManager :=
  let cur := (m.active_connections sid).getD []
  ⟨fun s => if s = sid then some (cur ++ [ws]) else m.active_connections s⟩

/-- `ConnectionManager.disconnect`: if the session has an entry, remove the
channel (first occurrence, as Python `list.remove`) when present, and delete
the whole entry when the list becomes empty. -/
def disconnect (m : ConnectionManager) (ws : Nat) (sid : String) :
    ConnectionManager :=
  ⟨fun s =>
    if s = sid then
      match m.active_connections sid with
      | none => none
      | some l =>
          let l' := if ws ∈ l then l.erase ws else l
          if l' = [] then none else some l'
    else m.active_connections s⟩

/-- `ConnectionManager.get_participant_count`: length of the session's channel
list, `0` if the session is absent. -/
def get_participant_count (m : ConnectionManager) (sid : String) : Nat :=
  ((m.active_connections sid).getD []).length

/-- The `for connection in self.active_connections[session_id]` loop of
`broadcast`: try `send_json` on each channel in order, collecting the
successfully delivered channels and the `dead_connections` (those whose send
raised), without touching the registry. -/
def sendPass (sendOk : Nat → Bool) : List Nat → List Nat × List Nat
  | [] => ([], [])
  | c :: cs =>
    let rest := sendPass sendOk cs
    if sendOk c then (c :: rest.1, rest.2) else (rest.1, c :: rest.2)

/-- `ConnectionManager.broadcast`: if the session has registered channels, run
the send pass over all of them, then `disconnect` each dead channel after the
pass completes.  Returns the new registry and the channels that received the
event. -/
def broadcast (m : ConnectionManager) (sid : String) (sendOk : Nat → Bool) :
    ConnectionManager × List Nat :=
  match m.active_connections sid with
  | none => (m, [])
  | some conns =>
      let pass := sendPass sendOk conns
      (pass.2.foldl (fun acc dc => disconnect acc dc sid) m, pass.1)

theorem sendPass_eq (sendOk : Nat → Bool) (l : List Nat) :
    sendPass sendOk l =
      (l.filter sendOk, l.filter (fun c => !sendOk c)) := by
  induction l with
  | nil => rfl
  | cons c cs ih =>
      simp only [sendPass, ih, List.filter_cons]
      cases h : sendOk c <;> simp [h]

theorem foldl_erase_cons_of_ne (ds : List Nat) (a : Nat) (l : List Nat)
    (h : ∀ d ∈ ds, d ≠ a) :
    ds.foldl (fun acc d => acc.erase d) (a :: l) =
      a :: ds.foldl (fun acc d => acc.erase d) l := by
  induction ds generalizing l with
  | nil => rfl
  | cons d ds ih =>
      have hda : d ≠ a := h d (List.mem_cons_self d ds)
      have : (a :: l).erase d = a :: l.erase d := by
        rw [List.erase_cons_tail]
        simp [Ne.symm hda]
      simp only [List.foldl_cons, this]
      exact ih (l.erase d) (fun x hx => h x (List.mem_cons_of_mem d hx))

/-- Erasing, from a list, exactly the elements failing a predicate (in
first-occurrence order) leaves the elements satisfying it. -/
theorem foldl_erase_filter (p : Nat → Bool) (l : List Nat) :
    (l.filter (fun c => !p c)).foldl (fun acc d => acc.erase d) l =
      l.filter p := by
  induction l with
  | nil => rfl
  | cons a l ih =>
      cases hp : p a with
      | true =>
          have hne : ∀ d ∈ l.filter (fun c => !p c), d ≠ a := by
            intro d hd hda
            have hmem := List.of_mem_filter hd
            rw [hda, hp] at hmem
            simp at hmem
          rw [List.filter_cons_of_neg, List.filter_cons_of_pos,
            foldl_erase_cons_of_ne _ _ _ hne, ih]
          · simp [hp]
          · simp [hp]
      | false =>
          rw [List.filter_cons_of_pos, List.filter_cons_of_neg]
          · simp only [List.foldl_cons, List.erase_cons_head]
            exact ih
          · simp [hp]
          · simp [hp]

/-- The value-level effect of one `disconnect` on the entry of the session it
targets. -/
def valAfterDisconnect (o : Option (List Nat)) (ws : Nat) :
    Option (List Nat) :=
  match o with
  | none => none
  | some l =>
      let l' := if ws ∈ l then l.erase ws else l
      if l' = [] then none else some l'

theorem disconnect_apply (m : ConnectionManager) (ws : Nat) (sid s : String) :
    (disconnect m ws sid).active_connections s =
      if s = sid then valAfterDisconnect (m.active_connections sid) ws
      else m.active_connections s := by
  cases hm : m.active_connections sid <;>
    simp [disconnect, valAfterDisconnect, hm]

theorem valAfterDisconnect_getD (o : Option (List Nat)) (ws : Nat) :
    ((valAfterDisconnect o ws).getD []) = (o.getD []).erase ws := by
  cases o with
  | none => rfl
  | some l =>
      simp only [Option.getD_some, valAfterDisconnect]
      by_cases hmem : ws ∈ l
      · simp only [hmem, if_true]
        split
        · next h => simp [h]
        · simp
      · rw [List.erase_of_not_mem hmem]
        simp only [hmem, if_false]
        split
        · next h => simp [h]
        · simp

theorem foldl_disconnect_getD (ds : List Nat) (m : ConnectionManager)
    (sid : String) :
    (((ds.foldl (fun acc dc => disconnect acc dc sid) m).active_connections
        sid).getD []) =
      ds.foldl (fun acc d => acc.erase d)
        ((m.active_connections sid).getD []) := by
  induction ds generalizing m with
  | nil => rfl
  | cons d ds ih =>
      simp only [List.foldl_cons]
      rw [ih (disconnect m d sid), disconnect_apply]
      simp [valAfterDisconnect_getD]

/-- Claim C1 core: `broadcast` on a session with registered channel list
`conns` delivers to exactly the channels whose send succeeds (a failure on one
channel never prevents delivery to the later ones, since dead channels are
only collected during the pass), and afterwards the registry's count for the
session is the number of channels that did not fail. -/
theorem broadcast_delivery (m : ConnectionManager) (sid : String)
    (sendOk : Nat → Bool) (conns : List Nat)
    (h : m.active_connections sid = some conns) :
    (broadcast m sid sendOk).2 = conns.filter sendOk ∧
      (∀ c ∈ conns, sendOk c = true → c ∈ (broadcast m sid sendOk).2) ∧
      get_participant_count (broadcast m sid sendOk).1 sid =
        (conns.filter sendOk).length := by
  have hb : broadcast m sid sendOk =
      ((conns.filter (fun c => !sendOk c)).foldl
          (fun acc dc => disconnect acc dc sid) m,
        conns.filter sendOk) := by
    simp [broadcast, h, sendPass_eq]
  refine ⟨by rw [hb], ?_, ?_⟩
  · intro c hc hok
    rw [hb]
    exact List.mem_filter.mpr ⟨hc, hok⟩
  · rw [hb]
    simp only [get_participant_count]
    rw [foldl_disconnect_getD, h]
    simp [foldl_erase_filter]

/-- Claim C1 witness: the spec's test — 3 registered channels with channel 2
pre-broken; `broadcast` delivers to channels 1 and 3, unregisters channel 2,
and the count afterwards is 2. -/
theorem broadcast_delivery_witness :
    (broadcast ⟨fun s => if s = "S" then some [1, 2, 3] else none⟩ "S"
        (fun c => c != 2)).2 = [1, 3] ∧
      get_participant_count
        (broadcast ⟨fun s => if s = "S" then some [1, 2, 3] else none⟩ "S"
          (fun c => c != 2)).1 "S" = 2 := by
  have h := broadcast_delivery
    ⟨fun s => if s = "S" then some [1, 2, 3] else none⟩ "S"
    (fun c => c != 2) [1, 2, 3] (by simp)
  refine ⟨?_, ?_⟩
  · rw [h.1]
    decide
  · rw [h.2.2]
    decide

/-- A call the handlers make to `manager.broadcast`: target session id and the
event pushed.  The registry-level fan-out of one such call is `broadcast`. -/
abbrev BroadcastCall := String × ServerEvent

/-- Request body of `POST /messages` (pydantic model `MessageCreate`). -/
structure MessageCreate where
  session_id : String
  content : String
  message_type : String := "text"
  file_name : Option String := none
  sender_id : String
  sender_nickname : Option String := none
deriving Repr, DecidableEq

/-- `create_message` (`POST /messages`): look the session up by id (404 when
absent, no expiry filter), read its current `message_ttl_minutes`, build the
message with `expires_at = now + ttl_minutes` minutes, insert it, and
broadcast a `new_message` event carrying the full message. -/
def create_message (d : DB) (data : MessageCreate) (newId : String)
    (now : Nat) : Except Nat (DB × Message × BroadcastCall) :=
  match d.sessions.find? (fun s => s.id == data.session_id) with
  | none => .error 404
  | some session =>
      let ttl_minutes := session.message_ttl_minutes
      let message : Message :=
        { id := newId
          session_id := data.session_id
          content := data.content
          message_type := data.message_type
          file_name := data.file_name
          sender_id := data.sender_id
          sender_nickname := data.sender_nickname
          created_at := now
          expires_at := now + ttl_minutes * 60 }
      .ok ({ d with messages := d.messages ++ [message] }, message,
        (data.session_id, .newMessage message))

/-- Claim C2: a stored message's `expires_at - created_at` equals the owning
session's `message_ttl_minutes` at the moment of sending, exactly (time in
seconds, so `ttl * 60`), and the message is persisted. -/
theorem create_message_ttl_exact (d : DB) (data : MessageCreate)
    (newId : String) (now : Nat) (s : Session) (d' : DB) (msg : Message)
    (bc : BroadcastCall)
    (hs : d.sessions.find? (fun t => t.id == data.session_id) = some s)
    (h : create_message d data newId now = .ok (d', msg, bc)) :
    msg.created_at = now ∧
      msg.expires_at - msg.created_at = s.message_ttl_minutes * 60 ∧
      msg ∈ d'.messages := by
  unfold create_message at h
  rw [hs] at h
  simp only [Except.ok.injEq, Prod.mk.injEq] at h
  obtain ⟨hd, hm, -⟩ := h
  subst hd
  subst hm
  refine ⟨rfl, ?_, ?_⟩
  · simp
  · simp

def freeSession : Session :=
  { id := "s1", code := "AB12CD", is_pro := false, message_ttl_minutes := 10,
    max_participants := 5, created_at := 0, expires_at := 86400 }

def dbFree : DB := ⟨[freeSession], []⟩

def msgW : Message :=
  { id := "m1", session_id := "s1", content := "hello",
    message_type := "text", sender_id := "u1", created_at := 1000,
    expires_at := 1600 }

/-- Claim C2 witness: sending a message in a free (10-minute TTL) session at
`now = 1000` stores `expires_at = 1600 = 1000 + 10 * 60`. -/
theorem create_message_ttl_exact_witness :
    msgW.created_at = 1000 ∧
      msgW.expires_at - msgW.created_at = freeSession.message_ttl_minutes * 60 ∧
      msgW ∈ (DB.mk [freeSession] [msgW]).messages :=
  create_message_ttl_exact dbFree
    { session_id := "s1", content := "hello", sender_id := "u1" } "m1" 1000
    freeSession ⟨[freeSession], [msgW]⟩ msgW ("s1", .newMessage msgW)
    (by rfl) (by rfl)

/-- `db.sessions.update_one(filter, {"$set": ...})`: update the first record
matching the filter, leave the rest unchanged. -/
def updateFirst (l : List Session) (q : Session → Bool)
    (f : Session → Session) : List Session :=
  match l with
  | [] => []
  | s :: rest => if q s then f s :: rest else s :: updateFirst rest q f

/-- The parsed payload of `POST /stripe/webhook` as the handler reads it:
`event["type"]` and `event["data"]["object"]["metadata"]["session_id"]`. -/
structure StripeEvent where
  event_type : String
  metadata_session_id : Option String
deriving Repr, DecidableEq

/-- The `$set` document both upgrade paths apply to the session record:
tier fields only (plus the webhook's `upgraded_at` audit stamp). -/
def proUpgradeSet (now : Nat) (s : Session) : Session :=
  { s with
      is_pro := true
      message_ttl_minutes := 60
      max_participants := 50
      upgraded_at := some now }

/-- `stripe_webhook` (`POST /stripe/webhook`): on a
`checkout.session.completed` event carrying a session id in its metadata,
apply the Pro upgrade to that session record and broadcast
`session_upgraded`; otherwise do nothing. -/
def stripe_webhook (d : DB) (ev : StripeEvent) (now : Nat) :
    List BroadcastCall × DB :=
  if ev.event_type == "checkout.session.completed" then
    match ev.metadata_session_id with
    | some sid =>
        ([(sid, .sessionUpgraded true 60 50)],
          { d with
              sessions := updateFirst d.sessions (fun s => s.id == sid)
                (proUpgradeSet now) })
    | none => ([], d)
  else ([], d)

/-- `secret_upgrade` (`POST /sessions/{session_id}/secret-upgrade`): 403 on a
secret mismatch, 404 when the session is absent, otherwise apply the Pro
upgrade (with the `secret_upgraded` marker) and broadcast
`session_upgraded`. -/
def secret_upgrade (d : DB) (sid : String)
    (secret_code server_secret : String) :
    List BroadcastCall × Except Nat DB :=
  if secret_code != server_secret then ([], .error 403)
  else
    match d.sessions.find? (fun s => s.id == sid) with
    | none => ([], .error 404)
    | some _ =>
        ([(sid, .sessionUpgraded true 60 50)],
          .ok { d with
              sessions := updateFirst d.sessions (fun s => s.id == sid)
                (fun s =>
                  { s with
                      is_pro := true
                      message_ttl_minutes := 60
                      max_participants := 50
                      secret_upgraded := true }) })

/-- The non-tier fields of a session record (everything the upgrade paths are
not allowed to touch). -/
def sessionCore (s : Session) : String × String × Nat × Nat × Option String :=
  (s.id, s.code, s.created_at, s.expires_at, s.creator_nickname)

/-- The store state after a handler that may fail: on an exception the store
is as before. -/
def exceptDB (d : DB) (r : Except Nat DB) : DB :=
  match r with
  | .ok d' => d'
  | .error _ => d

theorem updateFirst_map_core (l : List Session) (q : Session → Bool)
    (f : Session → Session) (hf : ∀ s, sessionCore (f s) = sessionCore s) :
    (updateFirst l q f).map sessionCore = l.map sessionCore := by
  induction l with
  | nil => rfl
  | cons s rest ih =>
      unfold updateFirst
      by_cases hq : q s
      · simp [hq, hf s]
      · simp [hq, ih]

/-- Claim C3: upgrading a session to Pro — via the Stripe webhook or the
secret path — leaves every stored message unchanged (the `messages`
collection is untouched), and modifies only tier fields of session records
(id, code, `created_at`, `expires_at`, `creator_nickname` of every session are
preserved). -/
theorem upgrade_preserves_messages_and_core (d : DB) (ev : StripeEvent)
    (now : Nat) (sid secret server : String) :
    (stripe_webhook d ev now).2.messages = d.messages ∧
      (stripe_webhook d ev now).2.sessions.map sessionCore =
        d.sessions.map sessionCore ∧
      (exceptDB d (secret_upgrade d sid secret server).2).messages =
        d.messages ∧
      (exceptDB d (secret_upgrade d sid secret server).2).sessions.map
          sessionCore =
        d.sessions.map sessionCore := by
  refine ⟨?_, ?_, ?_, ?_⟩
  · unfold stripe_webhook
    split
    · cases ev.metadata_session_id <;> rfl
    · rfl
  · unfold stripe_webhook
    split
    · cases ev.metadata_session_id with
      | none => rfl
      | some sid' => exact updateFirst_map_core _ _ _ (fun s => rfl)
    · rfl
  · unfold secret_upgrade
    split
    · rfl
    · cases d.sessions.find? (fun s => s.id == sid) <;> rfl
  · unfold secret_upgrade
    split
    · rfl
    · cases d.sessions.find? (fun s => s.id == sid) with
      | none => rfl
      | some s => exact updateFirst_map_core _ _ _ (fun t => rfl)

/-- `verify_upgrade` (`POST /sessions/{session_id}/verify-upgrade`): look the
session up by id (404 when absent) and report its current `is_pro` and
`message_ttl_minutes`.  The handler performs no store write, so the store
component of the result is the input store. -/
def verify_upgrade (d : DB) (sid : String) : DB × Except Nat (Bool × Nat) :=
  match d.sessions.find? (fun s => s.id == sid) with
  | none => (d, .error 404)
  | some s => (d, .ok (s.is_pro, s.message_ttl_minutes))

/-- Claim C10: `verify-upgrade` is read-only — the store after the call is
exactly the store before it for every input — and for an existing session it
returns the session's current `is_pro` and `message_ttl_minutes`. -/
theorem verify_upgrade_read_only (d : DB) (sid : String) (s : Session)
    (hs : d.sessions.find? (fun t => t.id == sid) = some s) :
    (∀ d0 sid0, (verify_upgrade d0 sid0).1 = d0) ∧
      (verify_upgrade d sid).2 = .ok (s.is_pro, s.message_ttl_minutes) := by
  constructor
  · intro d0 sid0
    unfold verify_upgrade
    cases d0.sessions.find? (fun t => t.id == sid0) <;> rfl
  · unfold verify_upgrade
    rw [hs]

/-- Claim C10 witness: on a one-session store, `verify-upgrade` leaves the
store untouched and reports the stored tier fields. -/
theorem verify_upgrade_read_only_witness :
    (verify_upgrade dbFree "s1").1 = dbFree ∧
      (verify_upgrade dbFree "s1").2 = .ok (false, 10) := by
  have h := verify_upgrade_read_only dbFree "s1" freeSession (by rfl)
  exact ⟨h.1 dbFree "s1", h.2⟩

/-- `db.sessions.delete_one({"id": sid})`: delete the first matching record. -/
def deleteFirstSession (l : List Session) (sid : String) : List Session :=
  match l with
  | [] => []
  | s :: rest => if s.id == sid then rest else s :: deleteFirstSession rest sid

/-- The text of the `session_destroyed` event. -/
def destroyedText : String := "A sessão foi encerrada pelo anfitrião."

/-- `destroy_session` (`DELETE /sessions/{session_id}/destroy`): 404 when the
session is absent; otherwise delete all the session's messages
(`delete_many`), then delete the session record (`delete_one`), then
broadcast `session_destroyed`.  Each store delete may fail (`await` raising);
a failure propagates out of the handler, skipping everything after it — in
particular no broadcast is issued.  `msgDeleteOk` / `sessDeleteOk` say
whether the two store operations succeed. -/
def destroy_session (d : DB) (sid : String) (msgDeleteOk sessDeleteOk : Bool) :
    List BroadcastCall × Except Nat DB :=
  match d.sessions.find? (fun s => s.id == sid) with
  | none => ([], .error 404)
  | some _ =>
      if msgDeleteOk then
        let d1 : DB :=
          { d with messages := d.messages.filter (fun m => m.session_id != sid) }
        if sessDeleteOk then
          let d2 : DB := { d1 with sessions := deleteFirstSession d1.sessions sid }
          ([(sid, .sessionDestroyed destroyedText)], .ok d2)
        else ([], .error 500)
      else ([], .error 500)

/-- Claim C5: `destroy_session` broadcasts `session_destroyed` only after both
deletions succeed: if the bulk message delete succeeds but the session delete
fails, no event is broadcast (and likewise when the message delete fails);
when both succeed, the broadcast happens and the store holds neither the
session nor its messages. -/
theorem destroy_session_broadcast_order (d : DB) (sid : String) (s : Session)
    (hs : d.sessions.find? (fun t => t.id == sid) = some s) :
    destroy_session d sid true false = ([], .error 500) ∧
      (∀ so, destroy_session d sid false so = ([], .error 500)) ∧
      destroy_session d sid true true =
        ([(sid, .sessionDestroyed destroyedText)],
          .ok ⟨deleteFirstSession d.sessions sid,
            d.messages.filter (fun m => m.session_id != sid)⟩) := by
  unfold destroy_session
  rw [hs]
  exact ⟨rfl, fun so => rfl, rfl⟩

/-- Claim C5 witness: destroying the one-session store with a failing session
delete broadcasts nothing; with both deletes succeeding it removes the
session's message and broadcasts `session_destroyed`. -/
theorem destroy_session_broadcast_order_witness :
    destroy_session ⟨[freeSession], [msgW]⟩ "s1" true false =
        ([], .error 500) ∧
      destroy_session ⟨[freeSession], [msgW]⟩ "s1" true true =
        ([("s1", .sessionDestroyed destroyedText)], .ok ⟨[], []⟩) := by
  have h := destroy_session_broadcast_order ⟨[freeSession], [msgW]⟩ "s1"
    freeSession (by rfl)
  refine ⟨h.1, ?_⟩
  rw [h.2.2]
  exact rfl

/-- The truthiness test of `find_one({"code": code, "expires_at": {"$gt":
now}})` inside `create_session`'s regeneration loop: is some stored session
with this code still unexpired? -/
def codeLive (d : DB) (now : Nat) (code : String) : Bool :=
  d.sessions.any (fun s => s.code == code && decide (now < s.expires_at))

/-- The `while` loop of `create_session`: starting from the first generated
code, re-roll while the current code belongs to a live session.  The draws of
`generate_session_code` are the stream `codes`; `fuel` bounds the number of
loop tests (the Python loop has no bound, so exhausted fuel is `none`). -/
def pickCode (d : DB) (now : Nat) (codes : Nat → String) :
    Nat → Nat → Option String
  | 0, _ => none
  | fuel + 1, i =>
      if codeLive d now (codes i) then pickCode d now codes fuel (i + 1)
      else some (codes i)

/-- `create_session` (`POST /sessions`): pick a code no currently-live session
has, then insert a session with free-tier defaults (TTL 10 minutes, cap 5)
expiring 24 hours after creation. -/
def create_session (d : DB) (newId : String) (nickname : Option String)
    (now : Nat) (codes : Nat → String) (fuel : Nat) :
    Option (DB × Session) :=
  match pickCode d now codes fuel 0 with
  | none => none
  | some code =>
      let session : Session :=
        { id := newId
          code := code
          is_pro := false
          message_ttl_minutes := 10
          max_participants := 5
          created_at := now
          expires_at := now + 24 * 3600
          creator_nickname := nickname }
      some ({ d with sessions := d.sessions ++ [session] }, session)

theorem pickCode_spec (d : DB) (now : Nat) (codes : Nat → String)
    (fuel i : Nat) (c : String)
    (h : pickCode d now codes fuel i = some c) :
    codeLive d now c = false ∧ ∃ j, c = codes j := by
  induction fuel generalizing i with
  | zero => exact absurd h (by simp [pickCode])
  | succ fuel ih =>
      unfold pickCode at h
      by_cases hl : codeLive d now (codes i)
      · rw [if_pos hl] at h
        exact ih (i + 1) h
      · rw [if_neg hl] at h
        obtain rfl : codes i = c := by simpa using h
        exact ⟨by simpa using hl, i, rfl⟩

/-- Claim C6: a session returned by `create_session` carries a 6-character
code (given that the generator only emits 6-character codes) distinct from
the code of every session that is still unexpired at creation time. -/
theorem create_session_code_unique (d : DB) (newId : String)
    (nickname : Option String) (now : Nat) (codes : Nat → String)
    (fuel : Nat) (d' : DB) (sess : Session)
    (hlen : ∀ i, (codes i).length = 6)
    (h : create_session d newId nickname now codes fuel = some (d', sess)) :
    sess.code.length = 6 ∧
      ∀ s ∈ d.sessions, now < s.expires_at → s.code ≠ sess.code := by
  unfold create_session at h
  cases hp : pickCode d now codes fuel 0 with
  | none => rw [hp] at h; exact absurd h (by simp)
  | some code =>
      rw [hp] at h
      simp only [Option.some.injEq, Prod.mk.injEq] at h
      obtain ⟨-, hsess⟩ := h
      obtain ⟨hlive, j, hj⟩ := pickCode_spec d now codes fuel 0 code hp
      constructor
      · rw [← hsess, hj]
        exact hlen j
      · intro s hmem hexp heq
        rw [codeLive, List.any_eq_false] at hlive
        have hps := hlive s hmem
        rw [← hsess] at heq
        simp only [heq, hexp] at hps
        simp at hps

def sessW : Session :=
  { id := "s9", code := "ZZ99ZZ", is_pro := false, message_ttl_minutes := 10,
    max_participants := 5, created_at := 10, expires_at := 86410 }

/-- Claim C6 witness: with the live session holding code `AB12CD`, a
generator whose first draw collides re-rolls and the created session gets the
fresh code `ZZ99ZZ`, distinct from every live code. -/
theorem create_session_code_unique_witness :
    sessW.code.length = 6 ∧
      ∀ s ∈ dbFree.sessions, 10 < s.expires_at → s.code ≠ sessW.code :=
  create_session_code_unique dbFree "s9" none 10
    (fun i => if i == 0 then "AB12CD" else "ZZ99ZZ") 3
    ⟨[freeSession, sessW], []⟩ sessW
    (fun i => by dsimp only; split <;> rfl) (by rfl)

/-- The pydantic response model `SessionResponse`.  Its `max_participants`
field has declared default `5`, used whenever a handler builds the response
without passing that field. -/
structure SessionResponse where
  id : String
  code : String
  is_pro : Bool
  message_ttl_minutes : Nat
  max_participants : Nat
  created_at : Nat
  expires_at : Nat
deriving Repr, DecidableEq

/-- Python `str.upper()` as used on the 6-character session codes: uppercase
every character. -/
def pyUpper (s : String) : String := String.mk (s.data.map Char.toUpper)

/-- `get_session` (`GET /sessions/{code}`): find a session whose code equals
the uppercased request code and whose `expires_at` is still in the future;
404 otherwise.  The handler builds the `SessionResponse` field by field and
omits `max_participants`, so the response carries the pydantic default `5`
regardless of the stored value. -/
def get_session (d : DB) (code : String) (now : Nat) :
    Except Nat SessionResponse :=
  match d.sessions.find?
      (fun s => s.code == pyUpper code && decide (now < s.expires_at)) with
  | none => .error 404
  | some s =>
      .ok { id := s.id
            code := s.code
            is_pro := s.is_pro
            message_ttl_minutes := s.message_ttl_minutes
            max_participants := 5
            created_at := s.created_at
            expires_at := s.expires_at }

/-- Claim C7: `get_session` is case-insensitive — two request codes with the
same uppercasing get the same answer — and fails with 404 exactly when no
stored session with the uppercased code is still unexpired. -/
theorem get_session_case_insensitive (d : DB) (now : Nat) (c1 c2 : String)
    (hcase : pyUpper c1 = pyUpper c2) :
    get_session d c1 now = get_session d c2 now ∧
      (get_session d c1 now = .error 404 ↔
        ∀ s ∈ d.sessions, ¬(s.code = pyUpper c1 ∧ now < s.expires_at)) := by
  constructor
  · unfold get_session
    rw [hcase]
  · unfold get_session
    cases hf : d.sessions.find?
        (fun s => s.code == pyUpper c1 && decide (now < s.expires_at)) with
    | none =>
        refine iff_of_true rfl ?_
        intro s hs hcontra
        have hne := List.find?_eq_none.mp hf s hs
        simp only [Bool.and_eq_true, beq_iff_eq, decide_eq_true_eq] at hne
        exact hne ⟨hcontra.1, hcontra.2⟩
    | some s =>
        refine iff_of_false (by simp) ?_
        intro hall
        have hmem := List.mem_of_find?_eq_some hf
        have hp := List.find?_some hf
        simp only [Bool.and_eq_true, beq_iff_eq, decide_eq_true_eq] at hp
        exact hall s hmem ⟨hp.1, hp.2⟩

/-- Claim C7 witness: the spec's example — `ab12cd` and `AB12CD` resolve to
the same answer on a store holding a live session with code `AB12CD`, and the
lookup does not 404. -/
theorem get_session_case_insensitive_witness :
    pyUpper "ab12cd" = pyUpper "AB12CD" ∧
      get_session dbFree "ab12cd" 10 = get_session dbFree "AB12CD" 10 ∧
      ¬(get_session dbFree "ab12cd" 10 = .error 404) := by
  have hcase : pyUpper "ab12cd" = pyUpper "AB12CD" := by decide
  have h := get_session_case_insensitive dbFree 10 "ab12cd" "AB12CD" hcase
  refine ⟨hcase, h.1, ?_⟩
  intro h404
  have := h.2.mp h404 freeSession (by decide)
  apply this
  constructor
  · decide
  · decide

def proSession : Session :=
  { id := "s2", code := "PRO123", is_pro := true, message_ttl_minutes := 60,
    max_participants := 50, created_at := 0, expires_at := 86400 }

/-- Claim C8 failing input: a Pro session stores `max_participants = 50`, yet
`GET /sessions/{code}` answers with `max_participants = 5`, because the
handler omits the field when building the response and the model default `5`
is used.  The remaining fields are returned as stored. -/
theorem get_session_drops_stored_max_participants :
    proSession.max_participants = 50 ∧
      get_session ⟨[proSession], []⟩ "PRO123" 10 =
        .ok { id := "s2", code := "PRO123", is_pro := true,
              message_ttl_minutes := 60, max_participants := 5,
              created_at := 0, expires_at := 86400 } :=
  ⟨rfl, by rfl⟩

/-- How the admission phase of `websocket_endpoint` ends. -/
inductive AdmitOutcome where
  | closedNotFound (closeCode : Nat)
  | closedFull (sent : List ServerEvent) (closeCode : Nat)
  | admitted
deriving Repr, DecidableEq

/-- The capacity error text (`Sessão lotada! ...` with the cap inserted). -/
def sessionFullText (maxP : Nat) : String :=
  "Sessão lotada! Máximo de " ++ toString maxP ++ " participantes."

/-- The admission phase of `websocket_endpoint` (`/ws/{session_id}`): close
with 4004 when the session id is unknown; when the current live count has
reached `max_participants`, accept only to send one `SESSION_FULL` error
event and close with 4003, leaving the registry untouched; otherwise register
the channel. -/
def websocket_admission (d : DB) (m : ConnectionManager) (sid : String)
    (ws : Nat) : AdmitOutcome × ConnectionManager :=
  match d.sessions.find? (fun s => s.id == sid) with
  | none => (.closedNotFound 4004, m)
  | some session =>
      let maxP := session.max_participants
      let cnt := get_participant_count m sid
      if cnt ≥ maxP then
        (.closedFull [.error "SESSION_FULL" (sessionFullText maxP) maxP] 4003,
          m)
      else
        (.admitted, connect m ws sid)

theorem count_connect (m : ConnectionManager) (ws : Nat) (sid : String) :
    get_participant_count (connect m ws sid) sid =
      get_participant_count m sid + 1 := by
  simp [connect, get_participant_count]

/-- Claim C4: a connection attempt against a session at/over capacity is
answered with exactly one `SESSION_FULL` error event carrying the cap and is
closed (code 4003) without touching the registry; and whenever the count is
within the cap before an attempt, it stays within the cap after it. -/
theorem websocket_admission_capacity (d : DB) (m : ConnectionManager)
    (sid : String) (ws : Nat) (s : Session)
    (hs : d.sessions.find? (fun t => t.id == sid) = some s) :
    (get_participant_count m sid ≥ s.max_participants →
        websocket_admission d m sid ws =
          (.closedFull
              [.error "SESSION_FULL" (sessionFullText s.max_participants)
                s.max_participants] 4003, m)) ∧
      (get_participant_count m sid ≤ s.max_participants →
        get_participant_count (websocket_admission d m sid ws).2 sid ≤
          s.max_participants) := by
  unfold websocket_admission
  rw [hs]
  constructor
  · intro hge
    simp only [ge_iff_le]
    rw [if_pos hge]
  · intro hle
    by_cases hge : get_participant_count m sid ≥ s.max_participants
    · simp only [ge_iff_le]
      rw [if_pos hge]
      exact hle
    · simp only [ge_iff_le]
      rw [if_neg hge]
      simp only
      rw [count_connect]
      omega

def capSession : Session :=
  { id := "s3", code := "CAP222", is_pro := false, message_ttl_minutes := 10,
    max_participants := 2, created_at := 0, expires_at := 86400 }

/-- Claim C4 witness: the spec's test — `max_participants = 2` with 2
registered channels refuses a 3rd attempt with the capacity error, does not
register it, and the count stays 2. -/
theorem websocket_admission_capacity_witness :
    get_participant_count
        ⟨fun s => if s = "s3" then some [1, 2] else none⟩ "s3" ≥
      capSession.max_participants ∧
      websocket_admission ⟨[capSession], []⟩
          ⟨fun s => if s = "s3" then some [1, 2] else none⟩ "s3" 7 =
        (.closedFull
            [.error "SESSION_FULL" (sessionFullText 2) 2] 4003,
          ⟨fun s => if s = "s3" then some [1, 2] else none⟩) ∧
      get_participant_count
        (websocket_admission ⟨[capSession], []⟩
            ⟨fun s => if s = "s3" then some [1, 2] else none⟩ "s3" 7).2
        "s3" = 2 := by
  have hge : get_participant_count
      ⟨fun s => if s = "s3" then some [1, 2] else none⟩ "s3" ≥
        capSession.max_participants := by decide
  have h := websocket_admission_capacity ⟨[capSession], []⟩
    ⟨fun s => if s = "s3" then some [1, 2] else none⟩ "s3" 7 capSession
    (by rfl)
  refine ⟨hge, h.1 hge, ?_⟩
  rw [h.1 hge]
  decide

/-- Client→server frames of the realtime protocol, as read by
`websocket_endpoint` via `data.get(...)`: a `get` that may miss is an
`Option`. -/
inductive ClientFrame where
  | join (sender_id : Option String) (nickname : Option String)
  | leave (nickname : Option String)
  | typing (sender_id : Option String) (nickname : Option String)
      (is_typing : Bool)
  | ping
  | unknown
deriving Repr, DecidableEq

/-- Python `x or dflt` on an optional string: falls back when the value is
missing or empty (falsy). -/
def orFallback (o : Option String) (dflt : String) : String :=
  match o with
  | some s => if s == "" then dflt else s
  | none => dflt

/-- The per-connection mutable state of `websocket_endpoint`: the shared
registry, the shared `user_nicknames` table (session id → sender id →
nickname; `data.get("sender_id")` may be `none`), and the connection-local
`current_user_id` / `current_nickname`. -/
structure WsState where
  manager : ConnectionManager
  nicknames : String → Option String → Option String
  current_user_id : Option String
  current_nickname : Option String

/-- One iteration of the `websocket_endpoint` receive loop on a frame, for a
connection to session `sid` admitted when the session's cap was `maxP`:
`join` stores the nickname in the presence table and broadcasts
`user_joined`; `leave` broadcasts `user_left` with `count - 1` and touches no
state beyond the broadcast; `typing` relays; `ping` answers `pong` directly;
unknown frames are ignored.  Returns the state, the broadcast events, and the
direct replies. -/
def handleFrame (st : WsState) (sid : String) (maxP : Nat)
    (sendOk : Nat → Bool) (frame : ClientFrame) :
    WsState × List ServerEvent × List ServerEvent :=
  match frame with
  | .join sender_id nickname =>
      let current_nickname := nickname.getD "Anônimo"
      let nicknames' : String → Option String → Option String := fun s u =>
        if s = sid then
          (if u = sender_id then some current_nickname else st.nicknames sid u)
        else st.nicknames s u
      let count := get_participant_count st.manager sid
      let m' := (broadcast st.manager sid sendOk).1
      ({ manager := m'
         nicknames := nicknames'
         current_user_id := sender_id
         current_nickname := some current_nickname },
        [.userJoined current_nickname sender_id count maxP], [])
  | .leave nickname =>
      let nick :=
        match nickname with
        | some n => n
        | none => orFallback st.current_nickname "Anônimo"
      let count := get_participant_count st.manager sid
      let m' := (broadcast st.manager sid sendOk).1
      ({ st with manager := m' }, [.userLeft nick ((count : Int) - 1)], [])
  | .typing sender_id nickname is_typing =>
      let m' := (broadcast st.manager sid sendOk).1
      ({ st with manager := m' },
        [.typing sender_id nickname is_typing], [])
  | .ping => (st, [], [.pong])
  | .unknown => (st, [], [])

/-- How a connection's receive loop ends: a `WebSocketDisconnect` (graceful
or abrupt transport close) or any other exception (unrecoverable
per-connection error). -/
inductive DisconnectKind where
  | transportClose
  | connError
deriving Repr, DecidableEq

/-- The exception handlers of `websocket_endpoint`.  On
`WebSocketDisconnect`: unregister the channel, broadcast `user_left` with the
last known nickname (placeholder `Alguém` when no join happened) and the
post-removal count, then pop the presence entry — but only when
`current_user_id` is truthy (non-`None`, non-empty).  On a generic exception:
only unregister the channel; the presence table is left as is and nothing is
broadcast. -/
def handleDisconnect (st : WsState) (sid : String) (ws : Nat)
    (kind : DisconnectKind) (sendOk : Nat → Bool) :
    WsState × List ServerEvent :=
  match kind with
  | .transportClose =>
      let m1 := disconnect st.manager ws sid
      let count := get_participant_count m1 sid
      let nick := orFallback st.current_nickname "Alguém"
      let m2 := (broadcast m1 sid sendOk).1
      let nicknames' : String → Option String → Option String :=
        match st.current_user_id with
        | some uid =>
            if uid == "" then st.nicknames
            else fun s u =>
              if s = sid then
                (if u = some uid then none else st.nicknames sid u)
              else st.nicknames s u
        | none => st.nicknames
      ({ st with manager := m2, nicknames := nicknames' },
        [.userLeft nick (count : Int)])
  | .connError =>
      ({ st with manager := disconnect st.manager ws sid }, [])

def wsStart : WsState :=
  { manager := ⟨fun s => if s = "S" then some [1] else none⟩
    nicknames := fun _ _ => none
    current_user_id := none
    current_nickname := none }

def wsJoined : WsState :=
  (handleFrame wsStart "S" 5 (fun _ => true)
    (.join (some "u1") (some "Alice"))).1

/-- Claim C9 counterexample: after an explicit `join` created the presence
entry, sending an explicit `leave` frame leaves the entry in place (the
handler only broadcasts `user_left`), and a close via a generic
per-connection error also leaves the entry in place (that handler only
unregisters the channel) — against the claim, which says the entry is
removed in both situations. -/
theorem presence_entry_survives_leave_and_error :
    wsJoined.nicknames "S" (some "u1") = some "Alice" ∧
      (handleFrame wsJoined "S" 5 (fun _ => true)
          (.leave none)).1.nicknames "S" (some "u1") = some "Alice" ∧
      (handleDisconnect wsJoined "S" 1 .connError
          (fun _ => true)).1.nicknames "S" (some "u1") = some "Alice" := by
  refine ⟨?_, ?_, ?_⟩ <;> decide

/-- Claim C9 amended: the presence entry created by a join with a truthy
(non-missing, non-empty) sender id is removed when the connection closes via
`WebSocketDisconnect`; an explicit `leave` frame does not modify the presence
table, and neither does closure via a generic per-connection error. -/
theorem presence_cleanup_semantics (st : WsState) (sid : String) (ws : Nat)
    (maxP : Nat) (sendOk : Nat → Bool) (nickFrame : Option String)
    (uid : String) (hcu : st.current_user_id = some uid)
    (hne : (uid == "") = false) :
    (handleFrame st sid maxP sendOk (.leave nickFrame)).1.nicknames =
        st.nicknames ∧
      (handleDisconnect st sid ws .connError sendOk).1.nicknames =
        st.nicknames ∧
      (handleDisconnect st sid ws .transportClose sendOk).1.nicknames sid
          (some uid) = none := by
  refine ⟨rfl, rfl, ?_⟩
  simp only [handleDisconnect, hcu, hne]
  simp

/-- Claim C9 amended witness: the joined participant `u1` has a truthy sender
id, and a transport close removes their presence entry. -/
theorem presence_cleanup_semantics_witness :
    wsJoined.current_user_id = some "u1" ∧
      ("u1" == "") = false ∧
      (handleDisconnect wsJoined "S" 1 .transportClose
          (fun _ => true)).1.nicknames "S" (some "u1") = none :=
  ⟨by decide, by decide,
    (presence_cleanup_semantics wsJoined "S" 1 5 (fun _ => true) none "u1"
      (by decide) (by decide)).2.2⟩
